import Mathlib

/-!
# WhoDB core bootstrap: engine registry and router

A shallow embedding of `core/src/src.go` (the engine bootstrap) and
`core/src/router/router.go` (the HTTP router bootstrap), together with the
properties the specification states about them.

Go code that mutates state is embedded as a state transformer that either
returns or panics (`Go σ α`); a pointer is an index into a heap of objects.
-/

namespace WhoDB

/-! ## Go control flow: return or panic, over an explicit state -/

/-- The reasons for which a call in this program can panic. -/
inductive Fatal where
  /-- a method was called through a nil (or dangling) pointer -/
  | nilDereference
  /-- a configuration error raised at startup for the given engine identifier -/
  | configuration (identifier : String)
  /-- a panic raised by the chi router with the given message -/
  | chi (message : String)
  deriving DecidableEq, Repr

/-- The result of running a Go function on a state: it returns a value, or it
panics; the state reached is kept in both cases. -/
inductive Outcome (σ α : Type) where
  | returned (value : α) (state : σ)
  | panicked (err : Fatal) (state : σ)
  deriving DecidableEq, Repr

/-- A Go function with side effects on a state of type `σ`. -/
def Go (σ α : Type) : Type := σ → Outcome σ α

/-- Return without touching the state. -/
def Go.pure {σ α : Type} (a : α) : Go σ α := fun s => .returned a s

/-- Sequencing: a panic of the first statement skips the rest. -/
def Go.bind {σ α β : Type} (m : Go σ α) (f : α → Go σ β) : Go σ β := fun s =>
  match m s with
  | .returned a s' => f a s'
  | .panicked e s' => .panicked e s'

instance {σ : Type} : Monad (Go σ) where
  pure := Go.pure
  bind := Go.bind

/-! ## The engine bootstrap (`core/src/src.go`) -/

/-- Modelled from the spec: the `Plugin` type of package `engine`, which is not
part of the visible sources. "Plugin: wraps one Adapter plus metadata (engine
identifier, supported capability flags, e.g. supports raw SQL)". -/
structure Plugin where
  /-- the engine identifier the plugin is registered under -/
  engineType : String
  /-- the adapter the plugin wraps, by name -/
  adapter : String
  /-- capability flag: raw execute is supported -/
  rawExecute : Bool
  deriving DecidableEq, Repr

/-- The values returned by the seven plugin constructors that `InitializeEngine`
calls. The constructors live in the plugin packages, which are not part of the
visible sources, so their results are parameters of the embedding. -/
structure Plugins where
  NewPostgresPlugin : Plugin
  NewMySQLPlugin : Plugin
  NewMyMariaDBPlugin : Plugin
  NewSqlite3Plugin : Plugin
  NewMongoDBPlugin : Plugin
  NewRedisPlugin : Plugin
  NewElasticSearchPlugin : Plugin
  deriving DecidableEq, Repr

/-- The plugins in the order in which `InitializeEngine` passes them to
`RegistryPlugin`. -/
def Plugins.inOrder (ps : Plugins) : List Plugin :=
  [ps.NewPostgresPlugin, ps.NewMySQLPlugin, ps.NewMyMariaDBPlugin, ps.NewSqlite3Plugin,
   ps.NewMongoDBPlugin, ps.NewRedisPlugin, ps.NewElasticSearchPlugin]

/-- What `InitializeEngine` uses of package `engine`: the value of the composite
literal `engine.Engine{}` and the method `RegistryPlugin`, which acts on its
receiver and may panic. -/
structure EngineImpl (E : Type) where
  /-- the value of `engine.Engine{}` -/
  zero : E
  /-- the effect of `e.RegistryPlugin(plugin)` on the receiver -/
  RegistryPlugin : E → Plugin → Except Fatal E

/-- The memory the bootstrap works on: a heap of engine objects, addressed by
their index, and the package variable `MainEngine` (`none` is the nil pointer). -/
structure World (E : Type) where
  heap : List E
  MainEngine : Option Nat
  deriving DecidableEq, Repr

/-- The statement `MainEngine = &engine.Engine{}`: allocates a new engine object
and stores its address in the package variable. -/
def assignNewEngine {E : Type} (impl : EngineImpl E) : Go (World E) Unit := fun w =>
  .returned () { heap := w.heap ++ [impl.zero], MainEngine := some w.heap.length }

/-- The statement `MainEngine.RegistryPlugin(plugin)`: reads the package
variable, and runs the method on the object it points to. -/
def callRegistryPlugin {E : Type} (impl : EngineImpl E) (plugin : Plugin) :
    Go (World E) Unit := fun w =>
  match w.MainEngine with
  | none => .panicked .nilDereference w
  | some a =>
    match w.heap[a]? with
    | none => .panicked .nilDereference w
    | some e =>
      match impl.RegistryPlugin e plugin with
      | .ok e' => .returned () { w with heap := w.heap.set a e' }
      | .error err => .panicked err w

/-- The statement `return MainEngine`. -/
def returnMainEngine {E : Type} : Go (World E) (Option Nat) := fun w =>
  .returned w.MainEngine w

/-- The function `InitializeEngine` of `core/src/src.go`. -/
def InitializeEngine {E : Type} (impl : EngineImpl E) (ps : Plugins) :
    Go (World E) (Option Nat) := do
  assignNewEngine impl
  callRegistryPlugin impl ps.NewPostgresPlugin
  callRegistryPlugin impl ps.NewMySQLPlugin
  callRegistryPlugin impl ps.NewMyMariaDBPlugin
  callRegistryPlugin impl ps.NewSqlite3Plugin
  callRegistryPlugin impl ps.NewMongoDBPlugin
  callRegistryPlugin impl ps.NewRedisPlugin
  callRegistryPlugin impl ps.NewElasticSearchPlugin
  returnMainEngine

/-- An engine that only records the calls made to `RegistryPlugin` on it, in
order: its state is the list of the arguments received so far. It is used to
state which calls `InitializeEngine` makes, whatever the method does. -/
def recordingEngine : EngineImpl (List Plugin) where
  zero := []
  RegistryPlugin := fun calls plugin => .ok (calls ++ [plugin])

/-! ### The registry, as the specification describes it -/

/-- Modelled from the spec: the `Credential` of section 3, "{engineType, host,
port, username, secret, database/schema name, advancedOptions: mapping of string
to string}"; its type is declared in package `engine`, which is not part of the
visible sources. -/
structure Credential where
  engineType : String
  host : String
  port : String
  username : String
  secret : String
  database : String
  advancedOptions : List (String × String)
  deriving DecidableEq, Repr

/-- Modelled from the spec: the error kinds of section 7 that `dispatch` can
produce; an adapter error carries its normalized kind and the original message. -/
inductive CoreError where
  | UnsupportedEngine
  | CapabilityNotSupported
  | adapter (kind : String) (message : String)
  deriving DecidableEq, Repr

/-- Modelled from the spec: the type `Engine` of package `engine`, which is not
part of the visible sources. "Registry/Engine: holds all registered Plugins keyed
by engine identifier". The plugins are kept in registration order. -/
structure Engine where
  plugins : List Plugin
  deriving DecidableEq, Repr

/-- Modelled from the spec: the method `RegistryPlugin` of package `engine`,
which is not part of the visible sources. "registerPlugin(plugin): adds a Plugin
keyed by its engine identifier; fails (configuration error, fatal at startup) on
duplicate identifiers." A fatal failure is a panic. -/
def Engine.registerPlugin (e : Engine) (plugin : Plugin) : Except Fatal Engine :=
  if e.plugins.any (fun q => q.engineType == plugin.engineType) then
    .error (.configuration plugin.engineType)
  else
    .ok { plugins := e.plugins ++ [plugin] }

/-- Modelled from the spec: the lookup step of `dispatch`, "resolves the Plugin
by credential.engineType"; it is part of package `engine`, which is not part of
the visible sources. -/
def Engine.resolve (e : Engine) (engineType : String) : Option Plugin :=
  e.plugins.find? (fun q => q.engineType == engineType)

/-- Modelled from the spec: `dispatch` of package `engine`, which is not part of
the visible sources. "dispatch(credential, operation, ...args): resolves the
Plugin by credential.engineType; fails with UnsupportedEngine if none registered;
otherwise forwards to the Plugin's Adapter and returns its result or normalized
error." The operation with its arguments is the function `operation`. -/
def Engine.dispatch {R : Type} (e : Engine) (credential : Credential)
    (operation : Plugin → Credential → Except CoreError R) : Except CoreError R :=
  match e.resolve credential.engineType with
  | none => .error .UnsupportedEngine
  | some plugin => operation plugin credential

/-- Modelled from the spec: package `engine` as section 4.1 describes it, in the
shape `InitializeEngine` uses it; `engine.Engine{}` holds no plugin. -/
def specEngine : EngineImpl Engine where
  zero := { plugins := [] }
  RegistryPlugin := Engine.registerPlugin

/-- The state a panicking or returning call leaves behind. -/
def Outcome.state {σ α : Type} : Outcome σ α → σ
  | .returned _ s => s
  | .panicked _ s => s

/-- The value a call returns, `none` when it panics. -/
def Outcome.value? {σ α : Type} : Outcome σ α → Option α
  | .returned a _ => some a
  | .panicked _ _ => none

/-! ## The router bootstrap (`core/src/router/router.go`) -/

namespace time

/-- Go's `time.Duration`: a number of nanoseconds. -/
abbrev Duration : Type := Int

def Nanosecond : Duration := 1
def Microsecond : Duration := 1000 * Nanosecond
def Millisecond : Duration := 1000 * Microsecond
def Second : Duration := 1000 * Millisecond
def Minute : Duration := 60 * Second

end time

/-- The fields of `cors.Options` that `setupMiddlewares` sets. -/
structure CorsOptions where
  AllowedOrigins : List String
  AllowedMethods : List String
  AllowedHeaders : List String
  ExposedHeaders : List String
  AllowCredentials : Bool
  MaxAge : Int
  deriving DecidableEq, Repr

/-- The middlewares `setupMiddlewares` installs, each with the arguments it is
built from. -/
inductive Middleware where
  | ThrottleBacklog (limit : Int) (backlogLimit : Int) (backlogTimeout : time.Duration)
  | RequestID
  | RealIP
  | Logger
  | RedirectSlashes
  | Recoverer
  | Timeout (timeout : time.Duration)
  | cors (options : CorsOptions)
  | AuthMiddleware
  deriving DecidableEq, Repr

/-- The gqlgen transports the router adds to the server. -/
inductive Transport where
  | Websocket
  deriving DecidableEq, Repr

/-- The GraphQL server built by `handler.NewDefaultServer`: the schema it
executes and the transports added to it with `AddTransport`, in order, on top of
those the constructor installs. -/
structure Server where
  schema : String
  addedTransports : List Transport
  deriving DecidableEq, Repr

/-- The call `handler.NewDefaultServer(schema)`. -/
def NewDefaultServer (schema : String) : Server :=
  { schema := schema, addedTransports := [] }

/-- The call `server.AddTransport(transport)`. -/
def Server.AddTransport (server : Server) (transport : Transport) : Server :=
  { server with addedTransports := server.addedTransports ++ [transport] }

/-- The HTTP handlers that occur in the router. -/
inductive Handler where
  /-- the result of `playground.Handler(title, endpoint)` -/
  | playground (title : String) (endpoint : String)
  /-- a GraphQL server -/
  | server (server : Server)
  /-- chi's handler for a path with no route -/
  | notFound
  deriving DecidableEq, Repr

/-- The part of a `chi.Mux` the bootstrap uses: the middleware stack, the
computed handler chain (nil until the first route is registered), and the
routes, which here are all static patterns registered for every method. -/
structure Mux where
  middlewares : List Middleware
  handler : Option (List Middleware)
  routes : List (String × Handler)
  deriving DecidableEq, Repr

/-- The call `chi.NewRouter()`. -/
def NewRouter : Mux := { middlewares := [], handler := none, routes := [] }

/-- The method `Use` of `chi.Mux`: appends to the middleware stack, and panics
once the handler chain has been computed, that is once a route exists. -/
def Mux.Use (middlewares : List Middleware) : Go Mux Unit := fun mx =>
  if mx.handler.isSome then
    .panicked (.chi "chi: all middlewares must be defined before routes on a mux") mx
  else
    .returned () { mx with middlewares := mx.middlewares ++ middlewares }

/-- The method `Handle` of `chi.Mux`: panics on a pattern that does not begin
with a slash, computes the handler chain from the middleware stack when it is
still nil, and inserts the route, replacing one of the same pattern. -/
def Mux.Handle (pattern : String) (h : Handler) : Go Mux Unit := fun mx =>
  if pattern.data.head? != some '/' then
    .panicked (.chi ("chi: routing pattern must begin with a slash in " ++ pattern)) mx
  else
    .returned ()
      { middlewares := mx.middlewares
        handler := match mx.handler with
          | none => some mx.middlewares
          | some chain => some chain
        routes := mx.routes.filter (fun r => r.1 != pattern) ++ [(pattern, h)] }

/-- The handler registered for a path, if any. -/
def Mux.route? (mx : Mux) (path : String) : Option Handler :=
  (mx.routes.find? (fun r => r.1 == path)).map (fun r => r.2)

/-- The handler the method `ServeHTTP` of `chi.Mux` runs for a request for
`path`: the middleware chain, outermost first, and the endpoint the path routes
to behind it. Without a computed handler chain the not-found handler answers
directly. A middleware of the chain may answer without calling the next one:
which middlewares a request enters is given by `Mux.serve`. -/
def Mux.ServeHTTP (mx : Mux) (path : String) : List Middleware × Handler :=
  match mx.handler with
  | none => ([], .notFound)
  | some chain => (chain, (mx.route? path).getD .notFound)

/-- What the router bootstrap reads from its process: the environment variables
and the package variable `env.IsDevelopment`. -/
structure Process where
  environ : List (String × String)
  IsDevelopment : Bool
  deriving DecidableEq, Repr

/-- The call `os.Getenv(key)`: the value of the variable, empty when unset. -/
def Process.Getenv (p : Process) (key : String) : String :=
  match p.environ.lookup key with
  | some value => value
  | none => ""

/-- The constant `defaultPort`. -/
def defaultPort : String := "8080"

/-- The function `setupPlaygroundHandler`. -/
def setupPlaygroundHandler (IsDevelopment : Bool) (server : Server) : Go Mux Unit := do
  if IsDevelopment then
    Mux.Handle "/" (.playground "GraphQL playground" "/query")
  Mux.Handle "/query" (.server server)

/-- The function `setupServer`; the executable schema it builds is kept as a name. -/
def setupServer (IsDevelopment : Bool) : Go Mux Unit := do
  let server := NewDefaultServer "graph.NewExecutableSchema(graph.Config\x7bResolvers: &graph.Resolver\x7b\x7d\x7d)"
  let server := server.AddTransport .Websocket
  setupPlaygroundHandler IsDevelopment server

/-- The function `setupMiddlewares`. -/
def setupMiddlewares : Go Mux Unit :=
  Mux.Use [
    .ThrottleBacklog 10000 1000 (time.Second * 5),
    .RequestID,
    .RealIP,
    .Logger,
    .RedirectSlashes,
    .Recoverer,
    .Timeout (10 * time.Minute),
    .cors {
      AllowedOrigins := ["https://*", "http://*"]
      AllowedMethods := ["GET", "POST", "PUT", "DELETE", "OPTIONS"]
      AllowedHeaders := ["Accept", "Authorization", "Content-Type", "X-CSRF-Token"]
      ExposedHeaders := []
      AllowCredentials := false
      MaxAge := 300 },
    .AuthMiddleware ]

/-- The arguments of the call to `http.ListenAndServe` that ends
`InitializeRouter`, and the line logged just before it. -/
structure Listening where
  logged : String
  addr : String
  deriving DecidableEq, Repr

/-- The function `InitializeRouter`, up to its call of `http.ListenAndServe`:
the state reached is the router passed to that call. -/
def InitializeRouter (p : Process) : Outcome Mux Listening :=
  let run : Go Mux Listening := do
    let port := p.Getenv "PORT"
    let port := if port == "" then defaultPort else port
    setupMiddlewares
    setupServer p.IsDevelopment
    pure { logged := "connect to 0.0.0.0:" ++ port ++ "/ for GraphQL playground"
           addr := ":" ++ port }
  run NewRouter

/-! ### The run of a request through the handler chain -/

/-- Seven plugins with pairwise distinct engine identifiers. -/
def samplePlugins : Plugins where
  NewPostgresPlugin := { engineType := "Postgres", adapter := "postgres", rawExecute := true }
  NewMySQLPlugin := { engineType := "MySQL", adapter := "mysql", rawExecute := true }
  NewMyMariaDBPlugin := { engineType := "MariaDB", adapter := "mysql", rawExecute := true }
  NewSqlite3Plugin := { engineType := "Sqlite3", adapter := "sqlite3", rawExecute := true }
  NewMongoDBPlugin := { engineType := "MongoDB", adapter := "mongodb", rawExecute := false }
  NewRedisPlugin := { engineType := "Redis", adapter := "redis", rawExecute := false }
  NewElasticSearchPlugin :=
    { engineType := "ElasticSearch", adapter := "elasticsearch", rawExecute := false }

/-- Seven plugins of which two, those of MySQL and MariaDB, carry the same
engine identifier. -/
def clashingPlugins : Plugins :=
  { samplePlugins with
    NewMyMariaDBPlugin := { engineType := "MySQL", adapter := "mysql", rawExecute := true } }

/-- A credential for the given engine identifier. -/
def sampleCredential (engineType : String) : Credential where
  engineType := engineType
  host := "localhost"
  port := "5432"
  username := "user"
  secret := "secret"
  database := "db"
  advancedOptions := []

/-- The state of the program before the first call of `InitializeEngine`: no
engine allocated, `MainEngine` nil. -/
def freshWorld (E : Type) : World E := { heap := [], MainEngine := none }

/-- With pairwise distinct identifiers, `InitializeEngine` over the registry of
the specification returns a new engine holding the seven plugins in order. -/
theorem InitializeEngine_specEngine (ps : Plugins) (w : World Engine)
    (hd : (ps.inOrder.map Plugin.engineType).Nodup) :
    InitializeEngine specEngine ps w =
      .returned (some w.heap.length)
        { heap := w.heap ++ [{ plugins := ps.inOrder }], MainEngine := some w.heap.length } := by
  simp [Plugins.inOrder] at hd
  obtain ⟨⟨h12, h13, h14, h15, h16, h17⟩, ⟨h23, h24, h25, h26, h27⟩, ⟨h34, h35, h36, h37⟩,
    ⟨h45, h46, h47⟩, ⟨h56, h57⟩, h67⟩ := hd
  simp [InitializeEngine, bind, Go.bind, assignNewEngine, callRegistryPlugin, returnMainEngine,
    specEngine, Engine.registerPlugin, Plugins.inOrder, *]

/-- In a list of plugins with pairwise distinct identifiers, looking up the
identifier of a member finds that member. -/
theorem find?_engineType_of_mem (l : List Plugin) (plugin : Plugin)
    (hd : (l.map Plugin.engineType).Nodup) (hm : plugin ∈ l) :
    l.find? (fun q => q.engineType == plugin.engineType) = some plugin := by
  induction l with
  | nil => simp at hm
  | cons q rest ih =>
    simp only [List.map_cons, List.nodup_cons, List.mem_map, not_exists, not_and] at hd
    rcases List.mem_cons.mp hm with rfl | hrest
    · simp
    · have hne : q.engineType ≠ plugin.engineType := fun h => hd.1 plugin hrest h.symm
      simp [List.find?_cons, hne, ih hd.2 hrest]

/-- Looking up an identifier that no plugin of the list carries finds nothing. -/
theorem find?_engineType_of_not_mem (l : List Plugin) (engineType : String)
    (hn : engineType ∉ l.map Plugin.engineType) :
    l.find? (fun q => q.engineType == engineType) = none := by
  simp only [List.mem_map, not_exists, not_and] at hn
  simp only [List.find?_eq_none, beq_iff_eq]
  intro q hq
  exact hn q hq

/-- On a router whose handler chain is not computed yet, `setupMiddlewares`
returns, having appended its nine middlewares to the stack. -/
theorem setupMiddlewares_returns (mx : Mux) (h : mx.handler = none) :
    setupMiddlewares mx = .returned ()
      { mx with middlewares := mx.middlewares ++ [
        .ThrottleBacklog 10000 1000 (time.Second * 5), .RequestID, .RealIP, .Logger,
        .RedirectSlashes, .Recoverer, .Timeout (10 * time.Minute),
        .cors {
          AllowedOrigins := ["https://*", "http://*"]
          AllowedMethods := ["GET", "POST", "PUT", "DELETE", "OPTIONS"]
          AllowedHeaders := ["Accept", "Authorization", "Content-Type", "X-CSRF-Token"]
          ExposedHeaders := []
          AllowCredentials := false
          MaxAge := 300 },
        .AuthMiddleware ] } := by
  simp [setupMiddlewares, Mux.Use, h]

/-- On a pattern that begins with a slash, `Handle` returns. -/
theorem Handle_returns (pattern : String) (h : Handler) (mx : Mux)
    (hp : pattern.data.head? = some '/') :
    Mux.Handle pattern h mx = .returned ()
      { middlewares := mx.middlewares
        handler := some (mx.handler.getD mx.middlewares)
        routes := mx.routes.filter (fun r => r.1 != pattern) ++ [(pattern, h)] } := by
  unfold Mux.Handle
  rw [if_neg (by simp [hp])]
  cases mx.handler <;> rfl

/-- The function `setupPlaygroundHandler` always returns; its effect on the
router. -/
theorem setupPlaygroundHandler_returns (dev : Bool) (server : Server) (mx : Mux) :
    setupPlaygroundHandler dev server mx = .returned ()
      { middlewares := mx.middlewares
        handler := some (mx.handler.getD mx.middlewares)
        routes :=
          if dev then
            (mx.routes.filter (fun r => r.1 != "/" && r.1 != "/query")
              ++ [("/", .playground "GraphQL playground" "/query"), ("/query", .server server)])
          else mx.routes.filter (fun r => r.1 != "/query") ++ [("/query", .server server)] } := by
  cases dev
  · simp [setupPlaygroundHandler, bind, Go.bind, pure, Go.pure]
    rw [Handle_returns _ _ _ (by decide)]
  · simp [setupPlaygroundHandler, bind, Go.bind, pure, Go.pure]
    rw [Handle_returns _ _ _ (by decide)]
    simp only
    rw [Handle_returns _ _ _ (by decide)]
    simp [List.filter_filter, Bool.and_comm]

/-- The function `InitializeRouter` always reaches its call of
`http.ListenAndServe`; the address and the router it passes to it. -/
theorem InitializeRouter_returns (p : Process) :
    InitializeRouter p = .returned
      { logged := "connect to 0.0.0.0:"
          ++ (if p.Getenv "PORT" == "" then defaultPort else p.Getenv "PORT")
          ++ "/ for GraphQL playground"
        addr := ":" ++ (if p.Getenv "PORT" == "" then defaultPort else p.Getenv "PORT") }
      ((setupServer p.IsDevelopment ((setupMiddlewares NewRouter).state)).state) := by
  simp only [InitializeRouter, bind, Go.bind, pure, Go.pure]
  rw [setupMiddlewares_returns NewRouter rfl]
  simp only [setupServer, Outcome.state]
  rw [setupPlaygroundHandler_returns]

/-- C1: for every prior heap and every prior value of `MainEngine`, a call of
`InitializeEngine` returns the address of a newly allocated engine, leaves that
address in `MainEngine`, and the calls of `RegistryPlugin` made on that engine
are exactly seven, for the Postgres, MySQL, MariaDB, Sqlite3, MongoDB, Redis and
ElasticSearch plugins in this order; the engines allocated before are unchanged,
so a repeated call does not add to an earlier engine. -/
theorem C1_InitializeEngine_registers_seven (ps : Plugins) (w : World (List Plugin)) :
    InitializeEngine recordingEngine ps w =
      .returned (some w.heap.length)
        { heap := w.heap ++
            [[ps.NewPostgresPlugin, ps.NewMySQLPlugin, ps.NewMyMariaDBPlugin,
              ps.NewSqlite3Plugin, ps.NewMongoDBPlugin, ps.NewRedisPlugin,
              ps.NewElasticSearchPlugin]]
          MainEngine := some w.heap.length }
    ∧ w.heap[w.heap.length]? = none := by
  simp [InitializeEngine, bind, Go.bind, assignNewEngine, callRegistryPlugin, returnMainEngine,
    recordingEngine]

/-- C2: when the seven plugins carry pairwise distinct identifiers,
`InitializeEngine` over the registry of the specification returns an engine on
which, for each of the seven plugins, a credential of its engine type resolves
to that plugin, every dispatched operation is forwarded to that plugin, and no
other of the seven plugins is resolved. -/
theorem C2_dispatch_routes_registered (ps : Plugins) (w : World Engine)
    (hd : (ps.inOrder.map Plugin.engineType).Nodup) :
    ∃ a w' e, InitializeEngine specEngine ps w = .returned (some a) w'
      ∧ w'.heap[a]? = some e
      ∧ ∀ plugin ∈ ps.inOrder, ∀ credential : Credential,
          credential.engineType = plugin.engineType →
            e.resolve credential.engineType = some plugin
            ∧ (∀ (R : Type) (operation : Plugin → Credential → Except CoreError R),
                e.dispatch credential operation = operation plugin credential)
            ∧ ∀ other ∈ ps.inOrder, other ≠ plugin →
                e.resolve credential.engineType ≠ some other := by
  refine ⟨w.heap.length, _, { plugins := ps.inOrder }, InitializeEngine_specEngine ps w hd,
    by simp, ?_⟩
  intro plugin hm credential hc
  have hr : Engine.resolve { plugins := ps.inOrder } credential.engineType = some plugin := by
    rw [hc]
    exact find?_engineType_of_mem ps.inOrder plugin hd hm
  refine ⟨hr, ?_, ?_⟩
  · intro R operation
    simp [Engine.dispatch, hr]
  · intro other _ hne h
    rw [hr] at h
    exact hne (Option.some.inj h).symm

/-- C2 at the sample plugins, from the initial state. -/
theorem C2_dispatch_routes_registered_witness :
    (samplePlugins.inOrder.map Plugin.engineType).Nodup
    ∧ ∃ a w' e, InitializeEngine specEngine samplePlugins (freshWorld Engine)
          = .returned (some a) w'
      ∧ w'.heap[a]? = some e
      ∧ ∀ plugin ∈ samplePlugins.inOrder, ∀ credential : Credential,
          credential.engineType = plugin.engineType →
            e.resolve credential.engineType = some plugin
            ∧ (∀ (R : Type) (operation : Plugin → Credential → Except CoreError R),
                e.dispatch credential operation = operation plugin credential)
            ∧ ∀ other ∈ samplePlugins.inOrder, other ≠ plugin →
                e.resolve credential.engineType ≠ some other :=
  ⟨by decide, C2_dispatch_routes_registered samplePlugins (freshWorld Engine) (by decide)⟩

/-- C3: when the seven plugins carry pairwise distinct identifiers,
`InitializeEngine` over the registry of the specification returns an engine on
which a credential whose engine type is none of the seven identifiers resolves
to no plugin, and every operation dispatched with it fails with
`UnsupportedEngine` and yields no result. -/
theorem C3_dispatch_unregistered_fails (ps : Plugins) (w : World Engine)
    (credential : Credential)
    (hd : (ps.inOrder.map Plugin.engineType).Nodup)
    (hu : credential.engineType ∉ ps.inOrder.map Plugin.engineType) :
    ∃ a w' e, InitializeEngine specEngine ps w = .returned (some a) w'
      ∧ w'.heap[a]? = some e
      ∧ e.resolve credential.engineType = none
      ∧ ∀ (R : Type) (operation : Plugin → Credential → Except CoreError R),
          e.dispatch credential operation = .error .UnsupportedEngine
          ∧ ∀ result, e.dispatch credential operation ≠ .ok result := by
  refine ⟨w.heap.length, _, { plugins := ps.inOrder }, InitializeEngine_specEngine ps w hd,
    by simp, ?_⟩
  have hr : Engine.resolve { plugins := ps.inOrder } credential.engineType = none :=
    find?_engineType_of_not_mem ps.inOrder credential.engineType hu
  refine ⟨hr, ?_⟩
  intro R operation
  have hfail : Engine.dispatch { plugins := ps.inOrder } credential operation
      = .error .UnsupportedEngine := by
    simp [Engine.dispatch, hr]
  refine ⟨hfail, ?_⟩
  intro result h
  rw [hfail] at h
  cases h

/-- C3 at the sample plugins and a credential of engine type `Oracle`. -/
theorem C3_dispatch_unregistered_fails_witness :
    (samplePlugins.inOrder.map Plugin.engineType).Nodup
    ∧ (sampleCredential "Oracle").engineType ∉ samplePlugins.inOrder.map Plugin.engineType
    ∧ ∃ a w' e, InitializeEngine specEngine samplePlugins (freshWorld Engine)
          = .returned (some a) w'
      ∧ w'.heap[a]? = some e
      ∧ e.resolve (sampleCredential "Oracle").engineType = none
      ∧ ∀ (R : Type) (operation : Plugin → Credential → Except CoreError R),
          e.dispatch (sampleCredential "Oracle") operation = .error .UnsupportedEngine
          ∧ ∀ result, e.dispatch (sampleCredential "Oracle") operation ≠ .ok result :=
  ⟨by decide, by decide,
    C3_dispatch_unregistered_fails samplePlugins (freshWorld Engine) (sampleCredential "Oracle")
      (by decide) (by decide)⟩

/-- C4: over the registry of the specification, registering a plugin whose
identifier the engine already holds fails with a configuration error, and when
two of the seven plugins carry the same identifier `InitializeEngine` panics
with a configuration error instead of returning an engine. -/
theorem C4_duplicate_identifier_is_fatal (e : Engine) (plugin : Plugin) (ps : Plugins)
    (w : World Engine)
    (hr : plugin.engineType ∈ e.plugins.map Plugin.engineType)
    (hd : ¬ (ps.inOrder.map Plugin.engineType).Nodup) :
    e.registerPlugin plugin = .error (.configuration plugin.engineType)
    ∧ (InitializeEngine specEngine ps w).value? = none
    ∧ ∃ identifier w',
        InitializeEngine specEngine ps w = .panicked (.configuration identifier) w' := by
  have hpanic : ∃ identifier w',
      InitializeEngine specEngine ps w = .panicked (.configuration identifier) w' := by
    by_cases h2 : ps.NewPostgresPlugin.engineType = ps.NewMySQLPlugin.engineType
    · simp [InitializeEngine, bind, Go.bind, assignNewEngine, callRegistryPlugin,
        returnMainEngine, specEngine, Engine.registerPlugin, h2]
    by_cases h3 : ps.NewPostgresPlugin.engineType = ps.NewMyMariaDBPlugin.engineType
        ∨ ps.NewMySQLPlugin.engineType = ps.NewMyMariaDBPlugin.engineType
    · simp [InitializeEngine, bind, Go.bind, assignNewEngine, callRegistryPlugin,
        returnMainEngine, specEngine, Engine.registerPlugin, h2, h3]
    by_cases h4 : ps.NewPostgresPlugin.engineType = ps.NewSqlite3Plugin.engineType
        ∨ ps.NewMySQLPlugin.engineType = ps.NewSqlite3Plugin.engineType
        ∨ ps.NewMyMariaDBPlugin.engineType = ps.NewSqlite3Plugin.engineType
    · simp [InitializeEngine, bind, Go.bind, assignNewEngine, callRegistryPlugin,
        returnMainEngine, specEngine, Engine.registerPlugin, h2, h3, h4]
    by_cases h5 : ps.NewPostgresPlugin.engineType = ps.NewMongoDBPlugin.engineType
        ∨ ps.NewMySQLPlugin.engineType = ps.NewMongoDBPlugin.engineType
        ∨ ps.NewMyMariaDBPlugin.engineType = ps.NewMongoDBPlugin.engineType
        ∨ ps.NewSqlite3Plugin.engineType = ps.NewMongoDBPlugin.engineType
    · simp [InitializeEngine, bind, Go.bind, assignNewEngine, callRegistryPlugin,
        returnMainEngine, specEngine, Engine.registerPlugin, h2, h3, h4, h5]
    by_cases h6 : ps.NewPostgresPlugin.engineType = ps.NewRedisPlugin.engineType
        ∨ ps.NewMySQLPlugin.engineType = ps.NewRedisPlugin.engineType
        ∨ ps.NewMyMariaDBPlugin.engineType = ps.NewRedisPlugin.engineType
        ∨ ps.NewSqlite3Plugin.engineType = ps.NewRedisPlugin.engineType
        ∨ ps.NewMongoDBPlugin.engineType = ps.NewRedisPlugin.engineType
    · simp [InitializeEngine, bind, Go.bind, assignNewEngine, callRegistryPlugin,
        returnMainEngine, specEngine, Engine.registerPlugin, h2, h3, h4, h5, h6]
    by_cases h7 : ps.NewPostgresPlugin.engineType = ps.NewElasticSearchPlugin.engineType
        ∨ ps.NewMySQLPlugin.engineType = ps.NewElasticSearchPlugin.engineType
        ∨ ps.NewMyMariaDBPlugin.engineType = ps.NewElasticSearchPlugin.engineType
        ∨ ps.NewSqlite3Plugin.engineType = ps.NewElasticSearchPlugin.engineType
        ∨ ps.NewMongoDBPlugin.engineType = ps.NewElasticSearchPlugin.engineType
        ∨ ps.NewRedisPlugin.engineType = ps.NewElasticSearchPlugin.engineType
    · simp [InitializeEngine, bind, Go.bind, assignNewEngine, callRegistryPlugin,
        returnMainEngine, specEngine, Engine.registerPlugin, h2, h3, h4, h5, h6, h7]
    exfalso
    apply hd
    simp only [not_or] at h3 h4 h5 h6 h7
    simp [Plugins.inOrder, *]
  refine ⟨?_, ?_, hpanic⟩
  · simp only [List.mem_map] at hr
    obtain ⟨q, hq, hqe⟩ := hr
    have : e.plugins.any (fun q => q.engineType == plugin.engineType) = true := by
      simp only [List.any_eq_true, beq_iff_eq]
      exact ⟨q, hq, hqe⟩
    simp [Engine.registerPlugin, this]
  · obtain ⟨identifier, w', h⟩ := hpanic
    simp [h, Outcome.value?]

/-- C4 at the plugins of which MySQL and MariaDB share an identifier. -/
theorem C4_duplicate_identifier_is_fatal_witness :
    samplePlugins.NewMySQLPlugin.engineType
        ∈ (Engine.mk [samplePlugins.NewPostgresPlugin, samplePlugins.NewMySQLPlugin]).plugins.map
            Plugin.engineType
    ∧ ¬ (clashingPlugins.inOrder.map Plugin.engineType).Nodup
    ∧ (Engine.mk [samplePlugins.NewPostgresPlugin, samplePlugins.NewMySQLPlugin]).registerPlugin
          samplePlugins.NewMySQLPlugin
        = .error (.configuration samplePlugins.NewMySQLPlugin.engineType)
    ∧ (InitializeEngine specEngine clashingPlugins (freshWorld Engine)).value? = none
    ∧ ∃ identifier w',
        InitializeEngine specEngine clashingPlugins (freshWorld Engine)
          = .panicked (.configuration identifier) w' :=
  ⟨by decide, by decide,
    C4_duplicate_identifier_is_fatal
      (Engine.mk [samplePlugins.NewPostgresPlugin, samplePlugins.NewMySQLPlugin])
      samplePlugins.NewMySQLPlugin clashingPlugins (freshWorld Engine) (by decide) (by decide)⟩

/-- C7: `setupMiddlewares` returns on the new router, which has no route yet, and
installs exactly nine middlewares, in the order throttling, request id, real IP,
logging, slash redirection, panic recovery, timeout, CORS, authentication, so
that `auth.AuthMiddleware` is the last, innermost one; on the router
`InitializeRouter` passes to `http.ListenAndServe`, every registered route, and
`/query` is one, is reached through these nine middlewares. -/
theorem C7_auth_is_innermost (p : Process) :
    ∃ installed router listening,
      setupMiddlewares NewRouter = .returned () installed
      ∧ installed.routes = []
      ∧ installed.middlewares = [
        .ThrottleBacklog 10000 1000 (time.Second * 5), .RequestID, .RealIP, .Logger,
        .RedirectSlashes, .Recoverer, .Timeout (10 * time.Minute),
        .cors {
          AllowedOrigins := ["https://*", "http://*"]
          AllowedMethods := ["GET", "POST", "PUT", "DELETE", "OPTIONS"]
          AllowedHeaders := ["Accept", "Authorization", "Content-Type", "X-CSRF-Token"]
          ExposedHeaders := []
          AllowCredentials := false
          MaxAge := 300 },
        .AuthMiddleware ]
      ∧ installed.middlewares.length = 9
      ∧ installed.middlewares.getLast? = some .AuthMiddleware
      ∧ setupServer p.IsDevelopment installed = .returned () router
      ∧ InitializeRouter p = .returned listening router
      ∧ (∀ route ∈ router.routes,
          router.ServeHTTP route.1 = (installed.middlewares, route.2)
          ∧ Middleware.AuthMiddleware ∈ (router.ServeHTTP route.1).1)
      ∧ ∃ handler, ("/query", handler) ∈ router.routes := by
  have hr := InitializeRouter_returns p
  cases hdev : p.IsDevelopment <;> rw [hdev] at hr
  · refine ⟨(setupMiddlewares NewRouter).state,
      (setupServer false (setupMiddlewares NewRouter).state).state, _,
      rfl, rfl, rfl, rfl, rfl, rfl, hr, ?_,
      ⟨.server ((NewDefaultServer
        "graph.NewExecutableSchema(graph.Config\x7bResolvers: &graph.Resolver\x7b\x7d\x7d)").AddTransport
        .Websocket), by decide⟩⟩
    intro route hroute
    have hroutes : (setupServer false (setupMiddlewares NewRouter).state).state.routes
        = [("/query", .server ((NewDefaultServer
            "graph.NewExecutableSchema(graph.Config\x7bResolvers: &graph.Resolver\x7b\x7d\x7d)").AddTransport
            .Websocket))] := rfl
    rw [hroutes] at hroute
    simp only [List.mem_singleton] at hroute
    subst hroute
    exact ⟨rfl, by decide⟩
  · refine ⟨(setupMiddlewares NewRouter).state,
      (setupServer true (setupMiddlewares NewRouter).state).state, _,
      rfl, rfl, rfl, rfl, rfl, rfl, hr, ?_,
      ⟨.server ((NewDefaultServer
        "graph.NewExecutableSchema(graph.Config\x7bResolvers: &graph.Resolver\x7b\x7d\x7d)").AddTransport
        .Websocket), by decide⟩⟩
    intro route hroute
    have hroutes : (setupServer true (setupMiddlewares NewRouter).state).state.routes
        = [("/", .playground "GraphQL playground" "/query"),
           ("/query", .server ((NewDefaultServer
            "graph.NewExecutableSchema(graph.Config\x7bResolvers: &graph.Resolver\x7b\x7d\x7d)").AddTransport
            .Websocket))] := rfl
    rw [hroutes] at hroute
    simp only [List.mem_cons, List.mem_singleton, List.not_mem_nil, or_false] at hroute
    rcases hroute with rfl | rfl
    · exact ⟨rfl, by decide⟩
    · exact ⟨rfl, by decide⟩

/-- C8: on a router without routes, `setupPlaygroundHandler` returns, having
registered the GraphQL server on `/query` whatever `env.IsDevelopment` is, and
the playground handler on `/` exactly when `env.IsDevelopment` is true; these
are the only paths registered. The server `setupServer` passes to it is the
default server with the websocket transport added. -/
theorem C8_registered_paths (IsDevelopment : Bool) (server : Server) (mx : Mux)
    (hr : mx.routes = []) :
    ∃ mx', setupPlaygroundHandler IsDevelopment server mx = .returned () mx'
      ∧ mx'.route? "/query" = some (.server server)
      ∧ (mx'.route? "/" = some (.playground "GraphQL playground" "/query")
          ↔ IsDevelopment = true)
      ∧ (mx'.route? "/" = none ↔ IsDevelopment = false)
      ∧ mx'.routes.map Prod.fst = (if IsDevelopment then ["/", "/query"] else ["/query"])
      ∧ ∃ passed, passed.addedTransports = [.Websocket]
          ∧ setupServer IsDevelopment mx = setupPlaygroundHandler IsDevelopment passed mx := by
  refine ⟨_, setupPlaygroundHandler_returns IsDevelopment server mx, ?_, ?_, ?_, ?_,
    ⟨_, rfl, rfl⟩⟩
  all_goals cases IsDevelopment <;> simp [Mux.route?, hr]

/-- C8 at the new router, in development mode. -/
theorem C8_registered_paths_witness :
    NewRouter.routes = []
    ∧ ∃ mx', setupPlaygroundHandler true (NewDefaultServer "schema") NewRouter
          = .returned () mx'
      ∧ mx'.route? "/query" = some (.server (NewDefaultServer "schema"))
      ∧ (mx'.route? "/" = some (.playground "GraphQL playground" "/query") ↔ true = true)
      ∧ (mx'.route? "/" = none ↔ true = false)
      ∧ mx'.routes.map Prod.fst = (if true then ["/", "/query"] else ["/query"])
      ∧ ∃ passed, passed.addedTransports = [.Websocket]
          ∧ setupServer true NewRouter = setupPlaygroundHandler true passed NewRouter :=
  ⟨rfl, C8_registered_paths true (NewDefaultServer "schema") NewRouter rfl⟩

/-- C9: `InitializeRouter` always reaches its call of `http.ListenAndServe`, and
the address it passes is `:8080` when `PORT` is unset or empty, and a colon
followed by the value of `PORT`, whatever it is, when that value is not empty. -/
theorem C9_listen_address (p : Process) :
    ∃ listening router, InitializeRouter p = .returned listening router
      ∧ listening.addr =
        match p.environ.lookup "PORT" with
        | none => ":8080"
        | some value => if value = "" then ":8080" else ":" ++ value := by
  refine ⟨_, _, InitializeRouter_returns p, ?_⟩
  simp only [Process.Getenv, defaultPort]
  cases p.environ.lookup "PORT" with
  | none => simp
  | some value => by_cases hv : value = "" <;> simp [hv]

/-- C6, as the code has it: when the seven registrations succeed, a call of
`InitializeEngine` allocates exactly one engine, at an address not in use
before, leaves the engines allocated before unchanged, registers the seven
plugins on the new engine in order, returns its address, and leaves that same
address in the package variable `MainEngine`, whatever that variable held. -/
theorem C6_handle_returned_and_stored_in_MainEngine {E : Type} (impl : EngineImpl E)
    (ps : Plugins) (w : World E) (engine : E)
    (hreg : List.foldlM impl.RegistryPlugin impl.zero ps.inOrder = .ok engine) :
    InitializeEngine impl ps w =
      .returned (some w.heap.length)
        { heap := w.heap ++ [engine], MainEngine := some w.heap.length }
    ∧ w.heap[w.heap.length]? = none := by
  refine ⟨?_, by simp⟩
  simp only [Plugins.inOrder, List.foldlM] at hreg
  simp only [InitializeEngine, bind, Go.bind, assignNewEngine, callRegistryPlugin, returnMainEngine]
  simp only [List.getElem?_concat_length, List.length_append, List.length_singleton]
  cases h1 : impl.RegistryPlugin impl.zero ps.NewPostgresPlugin with
  | error f => simp [h1, bind, Except.bind] at hreg
  | ok e1 =>
  simp [h1, bind, Except.bind] at hreg
  simp
  cases h2 : impl.RegistryPlugin e1 ps.NewMySQLPlugin with
  | error f => simp [h2] at hreg
  | ok e2 =>
  simp [h2] at hreg
  simp
  cases h3 : impl.RegistryPlugin e2 ps.NewMyMariaDBPlugin with
  | error f => simp [h3] at hreg
  | ok e3 =>
  simp [h3] at hreg
  simp
  cases h4 : impl.RegistryPlugin e3 ps.NewSqlite3Plugin with
  | error f => simp [h4] at hreg
  | ok e4 =>
  simp [h4] at hreg
  simp
  cases h5 : impl.RegistryPlugin e4 ps.NewMongoDBPlugin with
  | error f => simp [h5] at hreg
  | ok e5 =>
  simp [h5] at hreg
  simp
  cases h6 : impl.RegistryPlugin e5 ps.NewRedisPlugin with
  | error f => simp [h6] at hreg
  | ok e6 =>
  simp [h6] at hreg
  simp
  cases h7 : impl.RegistryPlugin e6 ps.NewElasticSearchPlugin with
  | error f => simp [h7, pure, Except.pure] at hreg
  | ok e7 =>
  simp [h7, pure, Except.pure] at hreg
  simp [hreg]

/-- C6 at the sample plugins, from the initial state, over the engine that
records its registrations. -/
theorem C6_handle_returned_and_stored_in_MainEngine_witness :
    List.foldlM recordingEngine.RegistryPlugin recordingEngine.zero samplePlugins.inOrder
        = .ok samplePlugins.inOrder
    ∧ InitializeEngine recordingEngine samplePlugins (freshWorld (List Plugin)) =
        .returned (some (freshWorld (List Plugin)).heap.length)
          { heap := (freshWorld (List Plugin)).heap ++ [samplePlugins.inOrder]
            MainEngine := some (freshWorld (List Plugin)).heap.length }
    ∧ (freshWorld (List Plugin)).heap[(freshWorld (List Plugin)).heap.length]? = none :=
  ⟨rfl, C6_handle_returned_and_stored_in_MainEngine recordingEngine samplePlugins
    (freshWorld (List Plugin)) samplePlugins.inOrder rfl⟩

/-- C6, as the claim has it, fails: starting with `MainEngine` nil, the call of
`InitializeEngine` returns the handle 0 and leaves that handle in the package
variable `MainEngine`, which is no longer nil. -/
theorem C6_MainEngine_is_assigned :
    (InitializeEngine recordingEngine samplePlugins (freshWorld (List Plugin))).value?
        = some (some 0)
    ∧ (InitializeEngine recordingEngine samplePlugins (freshWorld (List Plugin))).state.MainEngine
        = some 0
    ∧ (InitializeEngine recordingEngine samplePlugins (freshWorld (List Plugin))).state.MainEngine
        ≠ (freshWorld (List Plugin)).MainEngine := by
  decide

end WhoDB
